import Mathlib

/-
Verification of the Portls backend (src/main.py, src/schemas.py).

The embedding models Python/JSON values with the inductive `Value`, Python
dicts as ordered association lists with unique keys (CPython 3.7+ dicts
preserve insertion order), and the functions of src/main.py as Lean
functions over these.  Python exceptions are modelled with `Option` /
`Except`; the optional document-store connection from the (absent)
`database` module is modelled from the spec as abstract oracles.
-/

namespace Portls

/-- A Python/JSON-ish runtime value as it occurs in this backend: `none`
(None), booleans, numbers (floats are exact literals here, so ℚ), strings,
BSON ObjectIds (the store-assigned opaque identifier), lists, and dicts
(ordered association lists). -/
inductive Value : Type where
  | null : Value
  | bool : Bool → Value
  | num : ℚ → Value
  | str : String → Value
  | oid : Nat → Value
  | arr : List Value → Value
  | obj : List (String × Value) → Value

/-- A record / Python dict: field names to values, in insertion order. -/
abbrev Doc := List (String × Value)

/-- Python truthiness (`if not doc:` in `to_json`): None, False, 0, the
empty string, the empty list and the empty dict are falsy; everything
else, including any ObjectId, is truthy. -/
def truthy : Value → Bool
  | .null => false
  | .bool b => b
  | .num q => decide (q ≠ 0)
  | .str s => !s.isEmpty
  | .oid _ => true
  | .arr l => !l.isEmpty
  | .obj d => !d.isEmpty

/-- Python `str(...)` as used on the popped `_id` value (line 31 of
src/main.py).  The `_id` is an ObjectId in practice; its textual rendering
is opaque, and no endpoint or property depends on the exact text, only on
the result being a string.  Composite values get an opaque rendering. -/
def pyStr : Value → String
  | .null => "None"
  | .bool b => if b then "True" else "False"
  | .num q => toString q
  | .str s => s
  | .oid n => toString n
  | .arr _ => "[...]"
  | .obj _ => "{...}"

/-- Python `k in d` for a dict. -/
def hasKey (k : String) (d : Doc) : Bool :=
  d.any (fun p => p.1 == k)

/-- Python `d[k]` lookup, `none` when the key is absent.  Keys of a dict
are unique, so first-match lookup is the dict lookup. -/
def dictGet (k : String) (d : Doc) : Option Value :=
  (d.find? (fun p => p.1 == k)).map (fun p => p.2)

/-- Python `d.pop(k)`'s effect on the dict: the entry for `k` is removed
(keys are unique, so removing every match is removing the one match). -/
def dictPop (k : String) (d : Doc) : Doc :=
  d.filter (fun p => !(p.1 == k))

/-- Python `d[k] = v`: if `k` is present its value is replaced in place
(position preserved); otherwise the pair is appended at the end. -/
def dictSet (k : String) (v : Value) : Doc → Doc
  | [] => [(k, v)]
  | p :: ps => if p.1 == k then (k, v) :: ps else p :: dictSet k v ps

/-- Lines 30-31 of src/main.py on the copied dict `d`:
`if "_id" in d: d["id"] = str(d.pop("_id"))`. -/
def normObj (d : Doc) : Doc :=
  match dictGet "_id" d with
  | none => d
  | some v => dictSet "id" (.str (pyStr v)) (dictPop "_id" d)

mutual

/-- `to_json` from src/main.py lines 24-32.  A falsy argument is returned
unchanged; a list is normalized element-wise; a dict is copied and its
`_id` entry, when present, is replaced by a stringified `id` entry.  A
truthy value that is neither a list nor a mapping makes `dict(doc)` raise
in Python, modelled by `none`. -/
def to_json (v : Value) : Option Value :=
  if truthy v = false then some v
  else
    match v with
    | .arr l => (to_jsonList l).map Value.arr
    | .obj d => some (.obj (normObj d))
    | _ => none
termination_by sizeOf v
decreasing_by all_goals (simp_wf; try omega)

/-- The list comprehension `[to_json(d) for d in doc]`: elements in order,
the first raising element raising the whole. -/
def to_jsonList : List Value → Option (List Value)
  | [] => some []
  | d :: ds =>
    match to_json d, to_jsonList ds with
    | some d', some ds' => some (d' :: ds')
    | _, _ => none
termination_by l => sizeOf l
decreasing_by all_goals (simp_wf; try omega)

end

/-- The `Planet` Pydantic model of src/schemas.py, fields in declaration
order.  Float literals in the seed data are exact decimals, embedded in ℚ. -/
structure Planet where
  name : String
  tagline : Option String
  description : Option String
  distance_ly : ℚ
  difficulty : String
  featured_creatures : List String
  toy_categories : List String
  age_recommendation : String
  travel_time : String
  atmosphere : Option String
  hero_image : Option String

/-- An optional string field as a JSON value (`None` dumps to null). -/
def optVal : Option String → Value
  | none => .null
  | some s => .str s

/-- Pydantic `model_dump()`: the model as a dict, fields in declaration
order. -/
def Planet.model_dump (p : Planet) : Doc :=
  [("name", .str p.name),
   ("tagline", optVal p.tagline),
   ("description", optVal p.description),
   ("distance_ly", .num p.distance_ly),
   ("difficulty", .str p.difficulty),
   ("featured_creatures", .arr (p.featured_creatures.map Value.str)),
   ("toy_categories", .arr (p.toy_categories.map Value.str)),
   ("age_recommendation", .str p.age_recommendation),
   ("travel_time", .str p.travel_time),
   ("atmosphere", optVal p.atmosphere),
   ("hero_image", optVal p.hero_image)]

/-- `DEFAULT_PLANETS` from src/main.py lines 36-89. -/
def DEFAULT_PLANETS : List Planet :=
  [{ name := "Glubublub",
     tagline := some "Coral cities beneath sapphire seas",
     description := some "An underwater alien world with glowing reefs, bubble metros, and coral castles.",
     distance_ly := 12.5,
     difficulty := "Easy",
     featured_creatures := ["Bubblebacks", "Coral Crabs", "Kelp Knights"],
     toy_categories := ["Water Blasters", "Submarine Kits", "Sea Puzzles"],
     age_recommendation := "5-10",
     travel_time := "3 min through Aquaport Wormhole",
     atmosphere := some "High-pressure ocean, neon reefs, bubble oxygen domes",
     hero_image := some "/assets/planets/glubublub.jpg" },
   { name := "Unicornucopia",
     tagline := some "Rainbow forests and shimmering skies",
     description := some "Lush rainbow woods, crystal rivers, and friendly unicorn guides.",
     distance_ly := 8.2,
     difficulty := "Easy",
     featured_creatures := ["Star Unicorns", "Glimmer Owls"],
     toy_categories := ["Plushies", "Craft Kits", "Rainbow Wands"],
     age_recommendation := "4-9",
     travel_time := "2 min through Prism Gate",
     atmosphere := some "Pastel mists, candy clouds, gentle breezes",
     hero_image := some "/assets/planets/unicornucopia.jpg" },
   { name := "Lavar Major",
     tagline := some "Rivers of lava and magma dragons",
     description := some "Volcanic world with basalt fortresses and fireproof markets.",
     distance_ly := 21.0,
     difficulty := "Hard",
     featured_creatures := ["Magma Dragons", "Lava Lizards"],
     toy_categories := ["Fireproof Blocks", "Volcano Labs"],
     age_recommendation := "8-12",
     travel_time := "6 min through Ember Rift",
     atmosphere := some "Ash clouds, lava flows, heat domes",
     hero_image := some "/assets/planets/lavar-major.jpg" },
   { name := "Whispris",
     tagline := some "Floating pastel cloud isles",
     description := some "A hush-quiet sky realm of soft isles and whisper creatures.",
     distance_ly := 15.7,
     difficulty := "Medium",
     featured_creatures := ["Whisper Whales", "Cloud Sprites"],
     toy_categories := ["Gliders", "Kite Labs", "Soft Crafts"],
     age_recommendation := "6-11",
     travel_time := "4 min through Nimbus Loop",
     atmosphere := some "Low gravity, pastel fog, sky gardens",
     hero_image := some "/assets/planets/whispris.jpg" }]

/-- Modelled from the spec: the outcome of one `get_documents("planet")`
call of the Document Store Adapter (the `database` module is not in the
repository).  Per the spec it returns all records of the collection in
store-native order, or raises: `StoreUnavailable` when no connection is
configured, `StoreError` when the underlying call fails.  Both raises look
alike to the caller's `except Exception`, so they share one constructor. -/
inductive FetchResult : Type where
  | ok (docs : List Doc)
  | exn

/-- `list_planets` (src/main.py lines 111-118): return the normalized
store documents, falling back to the serialized `DEFAULT_PLANETS` when
`get_documents` (or anything else inside the `try`) raises. -/
def list_planets (fetch : FetchResult) : Value :=
  match fetch with
  | .ok docs =>
    match to_json (.arr (docs.map Value.obj)) with
    | some v => v
    | none => .arr (DEFAULT_PLANETS.map (fun p => .obj p.model_dump))
  | .exn => .arr (DEFAULT_PLANETS.map (fun p => .obj p.model_dump))

/-- Modelled from the spec: the outcome of
`db["planet"].find_one({...}) if db else None` (the `database` module is
not in the repository).  `noDoc` covers both an absent connection and a
lookup that returned `None`; `exn` covers any raise inside the `try`. -/
inductive FindResult : Type where
  | found (d : Doc)
  | noDoc
  | exn

/-- Python `str.lower()` as used in the name comparison of line 131:
lower-case each character.  (All names involved are ASCII, where this
agrees with Python.) -/
def pyLower (s : String) : String := String.mk (s.data.map Char.toLower)

/-- Lines 130-135 of src/main.py: scan `DEFAULT_PLANETS` for the first
case-insensitive name match, dump it and set its `id` to the
caller-supplied name; 404 when nothing matches. -/
def defaultPlanetFor (name : String) : Except Nat Value :=
  match DEFAULT_PLANETS.find? (fun p => pyLower p.name == pyLower name) with
  | some p => .ok (.obj (dictSet "id" (.str name) p.model_dump))
  | none => .error 404

/-- `get_planet` (src/main.py lines 121-135).  A truthy store document is
normalized and returned; otherwise (no document, falsy document, or any
exception, all swallowed by the `except`) the default scan runs.  The
`Except` error is the HTTP status of the raised `HTTPException`. -/
def get_planet (name : String) (r : FindResult) : Except Nat Value :=
  match r with
  | .found d =>
    if truthy (.obj d) then
      match to_json (.obj d) with
      | some v => .ok v
      | none => defaultPlanetFor name
    else defaultPlanetFor name
  | .noDoc => defaultPlanetFor name
  | .exn => defaultPlanetFor name

/-- The hard-coded demo profile of src/main.py lines 164-172. -/
def defaultProfile (username : String) : Doc :=
  [("username", .str username),
   ("avatar_type", .str "kid"),
   ("badges", .arr [.obj [("name", .str "First Jump"),
     ("description", .str "Completed your first wormhole jump!")]]),
   ("achievements", .arr [.obj [("title", .str "Explorer"),
     ("description", .str "Visited 2 planets")]]),
   ("saved_planets", .arr [.str "Unicornucopia", .str "Whispris"]),
   ("collectibles", .arr [.str "Starlight Sticker", .str "Coral Coin"]),
   ("travel_log", .arr [.str "Visited Sparklehorn Galaxy 2 days ago!"])]

/-- `get_profile` (src/main.py lines 154-172): a truthy store document is
normalized and returned, anything else yields the demo profile. -/
def get_profile (username : String) (r : FindResult) : Value :=
  match r with
  | .found d =>
    if truthy (.obj d) then
      match to_json (.obj d) with
      | some v => v
      | none => .obj (defaultProfile username)
    else .obj (defaultProfile username)
  | .noDoc => .obj (defaultProfile username)
  | .exn => .obj (defaultProfile username)

/-- Modelled from the spec: the behaviour of a present store connection
during one run of `seed_db` (the `database` module is not in the
repository).  `listCollections` is the result of
`db.list_collection_names()` and `countPlanet` that of
`db["planet"].count_documents({})`; `none` means the call raises.
`createFailsAt = some k` makes the k-th `create_document` call (0-based)
raise; earlier inserts have already happened by then. -/
structure ConnBehavior : Type where
  listCollections : Option (List String)
  countPlanet : Option Nat
  createFailsAt : Option Nat

/-- The documents `seed_db` would insert, in order: each default planet
serialized into the "planet" collection (line 98-99 of src/main.py). -/
def seedWrites : List (String × Doc) :=
  DEFAULT_PLANETS.map (fun p => ("planet", p.model_dump))

/-- The insert loop of lines 98-99: inserts each default planet in order;
a raising `create_document` keeps the earlier inserts and raises. -/
def doCreates (c : ConnBehavior) : List (String × Doc) × Bool :=
  match c.createFailsAt with
  | none => (seedWrites, false)
  | some k => (seedWrites.take k, decide (k < seedWrites.length))

/-- The body of `seed_db` inside the `try`, lines 96-99, with a present
connection: seed when `"planet" not in db.list_collection_names() or
db["planet"].count_documents({}) == 0` — `or` short-circuits, so the count
is only consulted when the collection name is present.  Returns the writes
performed and whether an exception escaped the body. -/
def seedBody (c : ConnBehavior) : List (String × Doc) × Bool :=
  match c.listCollections with
  | none => ([], true)
  | some names =>
    if "planet" ∈ names then
      match c.countPlanet with
      | none => ([], true)
      | some n => if n = 0 then doCreates c else ([], false)
    else doCreates c

/-- What one run of `seed_db` did to the store and the process. -/
structure SeedOutcome : Type where
  writes : List (String × Doc)
  propagated : Bool

/-- `seed_db` (src/main.py lines 92-102): the body runs under
`try: ... except Exception: pass`, so no exception ever escapes; with no
connection the `db is not None` guard skips everything. -/
def seed_db (conn : Option ConnBehavior) : SeedOutcome :=
  match conn with
  | none => { writes := [], propagated := false }
  | some c => { writes := (seedBody c).1, propagated := false }

/-- A heap of Python dict objects; an address is an index into the list. -/
abbrev DictHeap := List Doc

/-- The record branch of `to_json` (lines 29-32) with Python object
semantics made explicit: `d = dict(doc)` allocates a fresh copy of the
dict at address `a` at a new address, and the `pop`/assignment of lines
30-31 mutate only that copy.  Returns the heap after the call and the
address of the returned dict. -/
def to_json_objHeap (h : DictHeap) (a : Nat) : DictHeap × Nat :=
  let doc := h.getD a []
  let h1 := h ++ [doc]
  let b := h.length
  (h1.set b (normObj doc), b)

/-- The top-level records of an endpoint response: the element records of
a returned list, or the returned record itself.  Non-record elements and
responses contribute nothing. -/
def responseRecords : Value → List Doc
  | .arr l => l.filterMap (fun v => match v with | .obj d => some d | _ => none)
  | .obj d => [d]
  | _ => []

/-- A record carrying both the internal `_id` field and a public `id`
field, as the store could return it. -/
def conflictingIdsDoc : Doc :=
  [("_id", Value.oid 1), ("id", Value.str "old"), ("name", Value.str "x")]

/-- Unfolding lemma: a falsy argument is returned unchanged (line 25-26). -/
theorem to_json_falsy {v : Value} (h : truthy v = false) : to_json v = some v := by
  rw [to_json.eq_def, h]
  rfl

/-- Unfolding lemma: on a dict, `to_json` yields the normalized copy.  For
the empty dict this is the falsy pass-through (and `normObj [] = []`), for
a non-empty dict it is the mapping branch of lines 29-32. -/
theorem to_json_obj (d : Doc) : to_json (.obj d) = some (.obj (normObj d)) := by
  rw [to_json.eq_def]
  cases d with
  | nil => simp [truthy, normObj, dictGet]
  | cons p ps => simp [truthy]

/-- Unfolding lemma: on a list, `to_json` maps itself over the elements
(line 27-28); for the empty list the falsy pass-through returns the same
result as the empty mapping. -/
theorem to_json_arr (l : List Value) :
    to_json (.arr l) = (to_jsonList l).map Value.arr := by
  rw [to_json.eq_def]
  cases l with
  | nil => simp [truthy, to_jsonList]
  | cons d ds => simp [truthy]

/-- The element-wise traversal agrees with the standard monadic map:
the first element on which `to_json` raises makes the whole raise. -/
theorem to_jsonList_eq_mapM (l : List Value) : to_jsonList l = l.mapM to_json := by
  induction l with
  | nil => rw [to_jsonList]; rfl
  | cons d ds ih =>
    rw [to_jsonList, ih, List.mapM_cons]
    cases to_json d <;> cases ds.mapM to_json <;> simp

/-- Normalizing a list of dicts never raises and normalizes each dict. -/
theorem to_jsonList_objs (S : List Doc) :
    to_jsonList (S.map Value.obj) = some (S.map (fun d => Value.obj (normObj d))) := by
  induction S with
  | nil => simp [to_jsonList]
  | cons d ds ih => rw [List.map_cons, to_jsonList, to_json_obj, ih]; simp

/-- A key is absent exactly when its lookup fails. -/
theorem hasKey_false_iff_dictGet_none (k : String) (d : Doc) :
    hasKey k d = false ↔ dictGet k d = none := by
  induction d with
  | nil => simp [hasKey, dictGet]
  | cons p ps ih =>
    by_cases hk : p.1 == k
    · simp [hasKey, dictGet, List.find?, hk]
    · simp only [hasKey, dictGet, List.any_cons, List.find?] at *
      simp [hk, ih]

/-- Popping a key removes it. -/
theorem hasKey_dictPop_self (k : String) (d : Doc) :
    hasKey k (dictPop k d) = false := by
  induction d with
  | nil => rfl
  | cons p ps ih =>
    by_cases hk : p.1 == k
    · rw [show dictPop k (p :: ps) = dictPop k ps from by simp [dictPop, hk]]
      exact ih
    · rw [show dictPop k (p :: ps) = p :: dictPop k ps from by simp [dictPop, hk]]
      simpa [hasKey, hk] using ih

/-- Setting one key leaves the presence of any other key unchanged. -/
theorem hasKey_dictSet_ne {k k2 : String} (hne : k ≠ k2) (v : Value) (d : Doc) :
    hasKey k (dictSet k2 v d) = hasKey k d := by
  induction d with
  | nil => simp [dictSet, hasKey, hne, Ne.symm hne]
  | cons p ps ih =>
    by_cases hk : p.1 == k2
    · have : ¬(k2 == k) := by simpa using Ne.symm hne
      simp [dictSet, hasKey, hk, this]
      simp_all
    · simp [dictSet, hasKey, hk]
      simp_all [hasKey]

/-- Looking up the key just set yields the value set. -/
theorem dictGet_dictSet_self (k : String) (v : Value) (d : Doc) :
    dictGet k (dictSet k v d) = some v := by
  induction d with
  | nil => simp [dictSet, dictGet, List.find?]
  | cons p ps ih =>
    by_cases hk : p.1 == k
    · simp [dictSet, dictGet, List.find?, hk]
    · simpa [dictSet, dictGet, List.find?, hk] using ih

/-- Setting one key leaves the lookup of any other key unchanged. -/
theorem dictGet_dictSet_ne {k k2 : String} (hne : k ≠ k2) (v : Value) (d : Doc) :
    dictGet k (dictSet k2 v d) = dictGet k d := by
  induction d with
  | nil =>
    have : ¬(k2 == k) := by simpa using Ne.symm hne
    simp [dictSet, dictGet, List.find?, this]
  | cons p ps ih =>
    by_cases hk : p.1 == k2
    · have hpk : ¬(p.1 == k) := by
        intro hc
        exact hne (by simpa using ((beq_iff_eq.mp hc).symm.trans (beq_iff_eq.mp hk)))
      have : ¬(k2 == k) := by simpa using Ne.symm hne
      simp [dictSet, dictGet, List.find?, hk, hpk, this]
    · by_cases hpk : p.1 == k
      · simp [dictSet, dictGet, List.find?, hk, hpk]
      · simpa [dictSet, dictGet, List.find?, hk, hpk] using ih

/-- Popping one key leaves the lookup of any other key unchanged. -/
theorem dictGet_dictPop_ne {k k2 : String} (hne : k ≠ k2) (d : Doc) :
    dictGet k (dictPop k2 d) = dictGet k d := by
  induction d with
  | nil => rfl
  | cons p ps ih =>
    by_cases hk : p.1 == k2
    · have hpk : ¬(p.1 == k) := by
        intro hc
        exact hne (by simpa using ((beq_iff_eq.mp hc).symm.trans (beq_iff_eq.mp hk)))
      simpa [dictPop, dictGet, List.filter, List.find?, hk, hpk] using ih
    · by_cases hpk : p.1 == k
      · simp [dictPop, dictGet, List.filter, List.find?, hk, hpk]
      · simpa [dictPop, dictGet, List.filter, List.find?, hk, hpk] using ih

/-- A record with no `_id` field is left untouched by normalization. -/
theorem normObj_of_no_id {d : Doc} (h : hasKey "_id" d = false) : normObj d = d := by
  unfold normObj
  rw [(hasKey_false_iff_dictGet_none "_id" d).mp h]

/-- The normalized record never carries the internal `_id` field. -/
theorem hasKey_id_normObj (d : Doc) : hasKey "_id" (normObj d) = false := by
  unfold normObj
  cases hg : dictGet "_id" d with
  | none => exact (hasKey_false_iff_dictGet_none "_id" d).mpr hg
  | some v =>
    rw [hasKey_dictSet_ne (by decide) _ _]
    exact hasKey_dictPop_self "_id" d

/-- Normalization is idempotent on records. -/
theorem normObj_idem (d : Doc) : normObj (normObj d) = normObj d :=
  normObj_of_no_id (hasKey_id_normObj d)

/-- When `_id` is present, the normalized record exposes it, stringified,
under `id`. -/
theorem dictGet_id_normObj {d : Doc} {v : Value} (h : dictGet "_id" d = some v) :
    dictGet "id" (normObj d) = some (.str (pyStr v)) := by
  unfold normObj
  rw [h]
  exact dictGet_dictSet_self "id" _ _

/-- Normalization changes no field other than `_id` and `id`. -/
theorem dictGet_normObj_other {k : String} (h1 : k ≠ "_id") (h2 : k ≠ "id") (d : Doc) :
    dictGet k (normObj d) = dictGet k d := by
  unfold normObj
  cases hg : dictGet "_id" d with
  | none => rfl
  | some v =>
    show dictGet k (dictSet "id" (Value.str (pyStr v)) (dictPop "_id" d)) = dictGet k d
    rw [dictGet_dictSet_ne h2, dictGet_dictPop_ne h1]

/-- On a successful fetch, `list_planets` returns the store documents
normalized element-wise, in store order. -/
theorem list_planets_ok (docs : List Doc) :
    list_planets (.ok docs) = .arr (docs.map (fun d => Value.obj (normObj d))) := by
  show (match to_json (.arr (docs.map Value.obj)) with
        | some v => v
        | none => .arr (DEFAULT_PLANETS.map (fun p : Planet => .obj p.model_dump))) = _
  rw [to_json_arr, to_jsonList_objs]
  rfl

/-- No planet dump carries the internal identifier field. -/
theorem hasKey_id_model_dump (p : Planet) : hasKey "_id" p.model_dump = false := rfl

/-- The demo profile carries no internal identifier field. -/
theorem hasKey_id_defaultProfile (u : String) : hasKey "_id" (defaultProfile u) = false := rfl

/-- C2: the normalizer `to_json` is polymorphic over three input shapes: a
None/empty input is returned unchanged; a list is transformed element-wise
by recursively normalizing each element; a single record containing the
internal identifier field `_id` has that field removed and its value
reinserted, stringified, under the public field name `id`. -/
theorem toJson_polymorphic_shapes :
    (to_json .null = some .null
      ∧ to_json (.arr []) = some (.arr [])
      ∧ to_json (.obj []) = some (.obj []))
    ∧ (∀ l : List Value, to_json (.arr l) = (l.mapM to_json).map Value.arr)
    ∧ (∀ (d : Doc) (w : Value), dictGet "_id" d = some w →
        to_json (.obj d)
            = some (.obj (dictSet "id" (.str (pyStr w)) (dictPop "_id" d)))
          ∧ hasKey "_id" (normObj d) = false
          ∧ dictGet "id" (normObj d) = some (.str (pyStr w))) := by
  refine ⟨⟨to_json_falsy rfl, to_json_falsy rfl, to_json_falsy rfl⟩, ?_, ?_⟩
  · intro l
    rw [to_json_arr, to_jsonList_eq_mapM]
  · intro d w h
    refine ⟨?_, hasKey_id_normObj d, dictGet_id_normObj h⟩
    rw [to_json_obj]
    unfold normObj
    rw [h]

/-- Witness for C2 at a concrete record carrying `_id`. -/
theorem toJson_polymorphic_shapes_witness :
    to_json (.obj [("_id", Value.oid 7), ("name", Value.str "x")])
        = some (.obj (dictSet "id" (.str (pyStr (Value.oid 7)))
            (dictPop "_id" [("_id", Value.oid 7), ("name", Value.str "x")])))
      ∧ hasKey "_id" (normObj [("_id", Value.oid 7), ("name", Value.str "x")]) = false
      ∧ dictGet "id" (normObj [("_id", Value.oid 7), ("name", Value.str "x")])
          = some (.str (pyStr (Value.oid 7))) :=
  toJson_polymorphic_shapes.2.2 _ (Value.oid 7) rfl

/-- C3: the normalizer is idempotent: a record with no `_id` field is
returned equal to the input, and hence running `to_json` twice on any
record gives the same result as running it once. -/
theorem toJson_idempotent :
    (∀ d : Doc, hasKey "_id" d = false → to_json (.obj d) = some (.obj d))
    ∧ (∀ d : Doc, (to_json (.obj d)).bind to_json = to_json (.obj d)) := by
  constructor
  · intro d h
    rw [to_json_obj, normObj_of_no_id h]
  · intro d
    rw [to_json_obj]
    show to_json (.obj (normObj d)) = _
    rw [to_json_obj, normObj_idem]

/-- Witness for C3 at a concrete already-normalized record. -/
theorem toJson_idempotent_witness :
    to_json (.obj [("name", Value.str "Ada")]) = some (.obj [("name", Value.str "Ada")]) :=
  toJson_idempotent.1 _ rfl

/-- C5: on a non-empty list of records, `to_json` returns a list of the
same length whose i-th element is the normalization of the i-th input
element — order is preserved. -/
theorem toJson_list_elementwise (S : List Doc) (_hne : S ≠ []) :
    to_json (.arr (S.map Value.obj)) = some (.arr (S.map (fun d => Value.obj (normObj d))))
    ∧ (S.map (fun d => Value.obj (normObj d))).length = S.length
    ∧ (∀ i : Nat, (S.map (fun d => Value.obj (normObj d)))[i]?
        = (S[i]?).map (fun d => Value.obj (normObj d))) := by
  refine ⟨?_, List.length_map _ _, fun i => List.getElem?_map ..⟩
  rw [to_json_arr, to_jsonList_objs]
  rfl

/-- Witness for C5 at a concrete two-record list. -/
theorem toJson_list_elementwise_witness :
    to_json (.arr [Value.obj [("_id", Value.oid 1)], Value.obj []])
      = some (.arr [Value.obj [("id", Value.str "1")], Value.obj []]) :=
  (toJson_list_elementwise [[("_id", Value.oid 1)], []] (by simp)).1

/-- C9: the empty-input pass-through of `to_json` applies to every falsy
value — None, the empty list, the empty record, the empty string, 0 and
False are all returned unchanged; in particular an empty record gets no
`id` field. -/
theorem toJson_falsy_passthrough :
    to_json .null = some .null
    ∧ to_json (.arr []) = some (.arr [])
    ∧ to_json (.obj []) = some (.obj [])
    ∧ to_json (.str "") = some (.str "")
    ∧ to_json (.num 0) = some (.num 0)
    ∧ to_json (.bool false) = some (.bool false) :=
  ⟨to_json_falsy rfl, to_json_falsy rfl, to_json_falsy rfl, to_json_falsy rfl,
   to_json_falsy (by decide), to_json_falsy rfl⟩

/-- A successful default scan returns a dumped default planet with its
`id` set to the requested name. -/
theorem defaultPlanetFor_ok {name : String} {v : Value}
    (h : defaultPlanetFor name = .ok v) :
    ∃ p : Planet, v = .obj (dictSet "id" (.str name) p.model_dump) := by
  unfold defaultPlanetFor at h
  cases hf : DEFAULT_PLANETS.find? (fun q => pyLower q.name == pyLower name) with
  | none => rw [hf] at h; exact absurd h (by simp)
  | some p =>
    rw [hf] at h
    injection h with h
    exact ⟨p, h.symm⟩

/-- The default scan 404s exactly when no default planet name matches
case-insensitively. -/
theorem defaultPlanetFor_error_iff (name : String) :
    defaultPlanetFor name = .error 404
      ↔ ∀ p ∈ DEFAULT_PLANETS, pyLower p.name ≠ pyLower name := by
  unfold defaultPlanetFor
  cases hf : DEFAULT_PLANETS.find? (fun q => pyLower q.name == pyLower name) with
  | none =>
    simp only [hf]
    constructor
    · intro _ p hp
      simpa using List.find?_eq_none.mp hf p hp
    · intro _
      trivial
  | some p =>
    simp only [hf]
    constructor
    · intro hcon
      exact absurd hcon (by simp)
    · intro hall
      exact absurd (by simpa using List.find?_some hf)
        (hall p (List.mem_of_find?_eq_some hf))

/-- C1: every record returned across the system boundary by the read
endpoints (list_planets, get_planet, get_profile) is free of the internal
`_id` field, and a source record that carried `_id` exposes it as the
string-typed `id` field instead. -/
theorem no_internal_id_at_boundary :
    (∀ fetch : FetchResult, ∀ d ∈ responseRecords (list_planets fetch),
        hasKey "_id" d = false)
    ∧ (∀ (name : String) (r : FindResult) (v : Value), get_planet name r = .ok v →
        ∀ d ∈ responseRecords v, hasKey "_id" d = false)
    ∧ (∀ (u : String) (r : FindResult), ∀ d ∈ responseRecords (get_profile u r),
        hasKey "_id" d = false)
    ∧ (∀ (d : Doc) (w : Value), dictGet "_id" d = some w →
        ∃ s : String, dictGet "id" (normObj d) = some (.str s)) := by
  have hdflt : ∀ (name : String) (v : Value), defaultPlanetFor name = .ok v →
      ∀ d ∈ responseRecords v, hasKey "_id" d = false := by
    intro name v hv d hd
    obtain ⟨p, rfl⟩ := defaultPlanetFor_ok hv
    simp only [responseRecords, List.mem_singleton] at hd
    subst hd
    rw [hasKey_dictSet_ne (by decide)]
    exact hasKey_id_model_dump p
  refine ⟨?_, ?_, ?_, fun d w h => ⟨pyStr w, dictGet_id_normObj h⟩⟩
  · intro fetch d hd
    cases fetch with
    | ok docs =>
      rw [list_planets_ok] at hd
      simp only [responseRecords, List.mem_filterMap, List.mem_map] at hd
      obtain ⟨v, ⟨d0, _, rfl⟩, hv⟩ := hd
      obtain rfl : normObj d0 = d := by simpa using hv
      exact hasKey_id_normObj d0
    | exn =>
      simp only [list_planets, responseRecords, List.mem_filterMap, List.mem_map] at hd
      obtain ⟨v, ⟨p, _, rfl⟩, hv⟩ := hd
      obtain rfl : p.model_dump = d := by simpa using hv
      exact hasKey_id_model_dump p
  · intro name r v hv d hd
    cases r with
    | noDoc => exact hdflt name v hv d hd
    | exn => exact hdflt name v hv d hd
    | found d0 =>
      simp only [get_planet, to_json_obj] at hv
      by_cases ht : truthy (.obj d0) = true
      · rw [if_pos ht] at hv
        injection hv with hv
        subst hv
        simp only [responseRecords, List.mem_singleton] at hd
        subst hd
        exact hasKey_id_normObj d0
      · rw [if_neg ht] at hv
        exact hdflt name v hv d hd
  · intro u r d hd
    cases r with
    | noDoc =>
      simp only [get_profile, responseRecords, List.mem_singleton] at hd
      subst hd
      exact hasKey_id_defaultProfile u
    | exn =>
      simp only [get_profile, responseRecords, List.mem_singleton] at hd
      subst hd
      exact hasKey_id_defaultProfile u
    | found d0 =>
      simp only [get_profile, to_json_obj] at hd
      by_cases ht : truthy (.obj d0) = true
      · rw [if_pos ht] at hd
        simp only [responseRecords, List.mem_singleton] at hd
        subst hd
        exact hasKey_id_normObj d0
      · rw [if_neg ht] at hd
        simp only [responseRecords, List.mem_singleton] at hd
        subst hd
        exact hasKey_id_defaultProfile u

/-- Witness for C1: a record with `_id` exposes a string `id` after
normalization. -/
theorem no_internal_id_at_boundary_witness :
    ∃ s : String, dictGet "id" (normObj [("_id", Value.oid 5)]) = some (Value.str s) :=
  no_internal_id_at_boundary.2.2.2 _ (Value.oid 5) rfl

/-- C4 (amended): `to_json` does not mutate the caller's record — it
operates on a fresh copy, so after the call the original still holds
exactly its original fields, `_id` included; every field other than `_id`
and `id` appears unchanged in the output, and when `_id` is absent the
output equals the input — but a pre-existing `id` field is overwritten by
the stringified `_id` when `_id` is present. -/
theorem to_json_operates_on_copy (hp : DictHeap) (a : Nat) (ha : a < hp.length) :
    ((to_json_objHeap hp a).1.getD a [] = hp.getD a [])
    ∧ (to_json_objHeap hp a).2 ≠ a
    ∧ ((to_json_objHeap hp a).1.getD (to_json_objHeap hp a).2 [] = normObj (hp.getD a []))
    ∧ (∀ k : String, k ≠ "_id" → k ≠ "id" →
        dictGet k (normObj (hp.getD a [])) = dictGet k (hp.getD a []))
    ∧ (hasKey "_id" (hp.getD a []) = false → normObj (hp.getD a []) = hp.getD a []) := by
  refine ⟨?_, by simp [to_json_objHeap]; omega, ?_,
    fun k h1 h2 => dictGet_normObj_other h1 h2 _, fun h => normObj_of_no_id h⟩
  · show ((hp ++ [hp.getD a []]).set hp.length (normObj (hp.getD a []))).getD a [] = _
    rw [List.getD_eq_getElem?_getD, List.getElem?_set_ne (by omega),
      List.getElem?_append_left ha, List.getD_eq_getElem?_getD]
  · show ((hp ++ [hp.getD a []]).set hp.length (normObj (hp.getD a []))).getD hp.length [] = _
    rw [List.getD_eq_getElem?_getD, List.getElem?_set_self (by simp)]
    rfl

/-- Counterexample to C4 as stated: on a record carrying both `_id` and a
public `id` field, the `id` field — a field other than `_id` — does not
appear unchanged in the output; it is overwritten by the stringified
`_id`. -/
theorem to_json_operates_on_copy_counterexample :
    dictGet "id" conflictingIdsDoc = some (Value.str "old")
    ∧ dictGet "id" (normObj conflictingIdsDoc) = some (Value.str "1")
    ∧ ¬(dictGet "id" (normObj conflictingIdsDoc) = dictGet "id" conflictingIdsDoc) := by
  refine ⟨rfl, rfl, ?_⟩
  intro hcon
  rw [show dictGet "id" (normObj conflictingIdsDoc) = some (Value.str "1") from rfl,
    show dictGet "id" conflictingIdsDoc = some (Value.str "old") from rfl] at hcon
  injection hcon with hcon
  injection hcon with hcon
  exact absurd hcon (by decide)

/-- Witness for C4 (amended) on a concrete one-record heap. -/
theorem to_json_operates_on_copy_witness :
    (to_json_objHeap [conflictingIdsDoc] 0).1.getD 0 [] = conflictingIdsDoc
    ∧ (to_json_objHeap [conflictingIdsDoc] 0).2 ≠ 0
    ∧ dictGet "name" (normObj conflictingIdsDoc) = dictGet "name" conflictingIdsDoc := by
  have h := to_json_operates_on_copy [conflictingIdsDoc] 0 (by decide)
  exact ⟨h.1, h.2.1, h.2.2.2.1 "name" (by decide) (by decide)⟩

/-- C6: when the store read raises, `list_planets` returns the four
default planets serialized field-for-field; on a successful read it
returns the normalized store documents. -/
theorem list_planets_fallback :
    list_planets .exn = .arr (DEFAULT_PLANETS.map (fun p => .obj p.model_dump))
    ∧ DEFAULT_PLANETS.length = 4
    ∧ DEFAULT_PLANETS.map (fun p => p.name)
        = ["Glubublub", "Unicornucopia", "Lavar Major", "Whispris"]
    ∧ (∀ docs : List Doc,
        list_planets (.ok docs) = .arr (docs.map (fun d => Value.obj (normObj d)))) :=
  ⟨rfl, rfl, rfl, list_planets_ok⟩

/-- C7: startup seeding never propagates an exception — for every
behaviour of the connection, including bodies that do raise internally
(the third conjunct exhibits one) — and with no connection it performs no
store write at all. -/
theorem seed_db_never_crashes :
    (∀ conn : Option ConnBehavior, (seed_db conn).propagated = false)
    ∧ (seed_db none).writes = []
    ∧ (seedBody ⟨none, none, none⟩).2 = true := by
  refine ⟨?_, rfl, rfl⟩
  intro conn
  cases conn <;> rfl

/-- C8: with a connection present and no call raising, seeding inserts the
default planets into "planet" exactly when that collection is missing from
the collection listing or counts zero documents; otherwise the store is
left unchanged. -/
theorem seed_db_check_and_insert (names : List String) (n : Nat) :
    (("planet" ∉ names ∨ n = 0) →
      (seed_db (some ⟨some names, some n, none⟩)).writes = seedWrites)
    ∧ (("planet" ∈ names ∧ n ≠ 0) →
      (seed_db (some ⟨some names, some n, none⟩)).writes = [])
    ∧ seedWrites = DEFAULT_PLANETS.map (fun p => ("planet", p.model_dump)) := by
  refine ⟨?_, ?_, rfl⟩
  · intro h
    show (seedBody ⟨some names, some n, none⟩).1 = seedWrites
    unfold seedBody
    rcases h with h | h
    · simp [h, doCreates]
    · subst h
      by_cases hm : "planet" ∈ names <;> simp [hm, doCreates]
  · rintro ⟨h1, h2⟩
    show (seedBody ⟨some names, some n, none⟩).1 = []
    unfold seedBody
    simp [h1, h2]

/-- Witness for C8: an empty planet collection is seeded, a populated one
is left alone. -/
theorem seed_db_check_and_insert_witness :
    (seed_db (some ⟨some ["toy"], some 0, none⟩)).writes = seedWrites
    ∧ (seed_db (some ⟨some ["planet"], some 3, none⟩)).writes = [] :=
  ⟨(seed_db_check_and_insert ["toy"] 0).1 (Or.inr rfl),
   (seed_db_check_and_insert ["planet"] 3).2.1 ⟨by simp, by simp⟩⟩

/-- C10: with no store document for the requested name, `get_planet`
matches the default planets case-insensitively: it 404s exactly when no
default name matches, and on a match returns the first matching default
record with its public `id` set to the caller-supplied name verbatim. -/
theorem get_planet_default_scan (name : String) (r : FindResult)
    (hr : r = .noDoc ∨ r = .exn) :
    (get_planet name r = .error 404
      ↔ ∀ p ∈ DEFAULT_PLANETS, pyLower p.name ≠ pyLower name)
    ∧ (∀ p : Planet,
        DEFAULT_PLANETS.find? (fun q => pyLower q.name == pyLower name) = some p →
          get_planet name r = .ok (.obj (dictSet "id" (.str name) p.model_dump))
          ∧ dictGet "id" (dictSet "id" (.str name) p.model_dump) = some (.str name)
          ∧ p ∈ DEFAULT_PLANETS ∧ pyLower p.name = pyLower name) := by
  have hg : get_planet name r = defaultPlanetFor name := by
    rcases hr with rfl | rfl <;> rfl
  rw [hg]
  refine ⟨defaultPlanetFor_error_iff name, ?_⟩
  intro p hf
  refine ⟨?_, dictGet_dictSet_self _ _ _, List.mem_of_find?_eq_some hf,
    by simpa using List.find?_some hf⟩
  unfold defaultPlanetFor
  rw [hf]

/-- Witness for C10: the request "whispris" (caller casing) matches the
default planet "Whispris" and the returned `id` is the caller's string. -/
theorem get_planet_default_scan_witness :
    get_planet "whispris" FindResult.noDoc
      = .ok (.obj (dictSet "id" (Value.str "whispris")
          (Planet.model_dump (DEFAULT_PLANETS.get ⟨3, by decide⟩)))) :=
  ((get_planet_default_scan "whispris" .noDoc (Or.inl rfl)).2
    (DEFAULT_PLANETS.get ⟨3, by decide⟩) rfl).1

end Portls

